import Mathlib

/-
Verification of samples/c_cxx/classy/pics.py: a script that decodes one image,
resizes it to 224x224 with bilinear interpolation, converts it to a float32
tensor of shape (1, 3, 224, 224) and prints the values as a C++ array
initializer.  The PIL and numpy library calls the script makes are embedded
below following their documented semantics; float32 sample values are modelled
by rationals (every 8-bit sample value 0..255 is exactly representable in
float32, so no rounding is lost by this choice).
-/

namespace Pics

/-- Decoded raster image as PIL represents it: a width, a height, a number of
bands (channels; mode L has one band, LA two, RGB three, RGBA four) and 8-bit
samples indexed by row, column and band. -/
structure PILImage where
  width : Nat
  height : Nat
  bands : Nat
  px : Nat → Nat → Nat → Nat

/-- A numpy ndarray of float32 values, modelled as a shape together with a
total indexing function (meaningful on in-range indices). -/
structure NDArray where
  shape : List Nat
  data : List Nat → ℚ

/-- Triangle (bilinear) reconstruction filter, support 1. -/
def triangleFilter (x : ℚ) : ℚ := max 0 (1 - |x|)

/-- Filter scale used by the resampler: the source/destination ratio, at
least 1 (when enlarging, the filter is not widened). -/
def filterScale (src dst : Nat) : ℚ := max ((src : ℚ) / (dst : ℚ)) 1

/-- Center of destination sample i back-projected into source coordinates:
the affine stretch (i + 1/2) * src / dst. -/
def sampleCenter (src dst i : Nat) : ℚ :=
  ((i : ℚ) + 1 / 2) * ((src : ℚ) / (dst : ℚ))

/-- One-dimensional triangle-filter resampling of a source signal f of length
src down or up to length dst, evaluated at destination index i.  Models one
axis pass of PIL Image.resize with the BILINEAR filter: source taps are
clamped to [0, src), weighted by the triangle filter around the back-projected
center, and normalized by the weight sum. -/
def resample1D (src dst : Nat) (f : Nat → ℚ) (i : Nat) : ℚ :=
  let s := filterScale src dst
  let c := sampleCenter src dst i
  let kmin : Nat := (max 0 ⌊c - s⌋).toNat
  let kmax : Nat := min src (⌈c + s⌉).toNat
  let ks := (List.range (kmax - kmin)).map (· + kmin)
  let ws := ks.map fun k => triangleFilter (((k : ℚ) + 1 / 2 - c) / s)
  (List.zipWith (fun w k => w * f k) ws ks).sum / ws.sum

/-- Round a resampled value back to an 8-bit sample: round half up, clamp to
[0, 255]. -/
def clip8 (q : ℚ) : Nat := (min 255 (max 0 ⌊q + 1 / 2⌋)).toNat

/-- Models PIL Image.resize((newW, newH), Image.BILINEAR): the output raster
has exactly the requested dimensions whatever the source dimensions were, the
band count is preserved, and each band is resampled separably, horizontally
then vertically, with the triangle filter. -/
def resizeBilinear (img : PILImage) (newW newH : Nat) : PILImage :=
  { width := newW
    height := newH
    bands := img.bands
    px := fun y x c =>
      clip8 (resample1D img.height newH
        (fun yy => resample1D img.width newW (fun xx => (img.px yy xx c : ℚ)) x) y) }

/-- Models np.array(img, dtype=np.float32) on a PIL image: a one-band (mode L)
image becomes a 2-d array of shape (height, width); an image with several
bands becomes a 3-d array of shape (height, width, bands).  Each 8-bit sample
is cast to float32 unchanged. -/
def npArray (img : PILImage) : NDArray :=
  if img.bands = 1 then
    { shape := [img.height, img.width]
      data := fun idx =>
        match idx with
        | [y, x] => (img.px y x 0 : ℚ)
        | _ => 0 }
  else
    { shape := [img.height, img.width, img.bands]
      data := fun idx =>
        match idx with
        | [y, x, c] => (img.px y x c : ℚ)
        | _ => 0 }

/-- Models np.transpose(a, [2, 0, 1]): the length-3 axes list must match the
array dimension, which numpy checks before any per-axis bounds check, so a
non-3-d array raises a ValueError whose message is the axes-mismatch text; on
shape (h, w, c) the result has shape (c, h, w) and entry (i, j, k) reads
entry (j, k, i) of the argument. -/
def transpose201 (a : NDArray) : Except String NDArray :=
  match a.shape with
  | [h, w, c] =>
      .ok { shape := [c, h, w]
            data := fun idx =>
              match idx with
              | [i, j, k] => a.data [j, k, i]
              | _ => 0 }
  | _ => .error "axes don\x27t match array"

/-- Models np.expand_dims(a, 0): prepends a batch axis of extent 1; entry
(0, rest...) reads entry (rest...) of the argument. -/
def expandDims0 (a : NDArray) : NDArray :=
  { shape := 1 :: a.shape
    data := fun idx =>
      match idx with
      | _ :: rest => a.data rest
      | [] => 0 }

/-- Models the basic slice a[:, 0:3, :, :]: requires (here) a 4-d array, else
numpy raises an IndexError; axis 1 is cut down to its first min 3 c entries
and, the slice starting at 0, indices are unchanged. -/
def sliceChannels03 (a : NDArray) : Except String NDArray :=
  match a.shape with
  | [b, c, h, w] => .ok { shape := [b, min 3 c, h, w], data := a.data }
  | _ =>
      .error ("too many indices for array: array is "
        ++ toString a.shape.length ++ "-dimensional, but 4 were indexed")

/-- The numpy part of preprocess, applied to the already resized image:
float32 conversion, transpose to channel-first, batch axis, channel slice. -/
def npChain (img : PILImage) : Except String NDArray :=
  (transpose201 (npArray img)).bind fun a => sliceChannels03 (expandDims0 a)

/-- preprocess(img_path) from pics.py: Image.open, resize to (224, 224) with
BILINEAR, np.array as float32, np.transpose [2,0,1], np.expand_dims 0, slice
[:, 0:3, :, :].  The file decoding step Image.open is abstracted by the
decode argument so failures (missing file, bad format) can be represented. -/
def preprocess (decode : String → Except String PILImage) (imgPath : String) :
    Except String NDArray :=
  (decode imgPath).bind fun img => npChain (resizeBilinear img 224 224)

/-- The index tuples [i, j, k, l] visited by the four nested for loops of the
print section, in row-major (batch, channel, row, column) order. -/
def rowMajorIdx (b c h w : Nat) : List (List Nat) :=
  (List.range b).flatMap fun i =>
    (List.range c).flatMap fun j =>
      (List.range h).flatMap fun k =>
        (List.range w).map fun l => [i, j, k, l]

/-- One printed scalar line: four spaces, the textual value, a comma. -/
def scalarLine (q : ℚ) : String := "    " ++ toString q ++ ","

/-- The scalar lines printed by the four nested for loops over the 4-d
tensor. -/
def scalarLines (t : NDArray) : List String :=
  match t.shape with
  | [b, c, h, w] => (rowMajorIdx b c h w).map fun idx => scalarLine (t.data idx)
  | _ => []

/-- The whole standard output of one run of pics.py, as a list of lines: the
opening literal, one line per tensor scalar, the closing literal.  If
preprocess fails, the uncaught exception aborts the run before anything is
printed, so the error is returned with no output lines at all. -/
def runProgram (decode : String → Except String PILImage) (imgPath : String) :
    Except String (List String) :=
  match preprocess decode imgPath with
  | .error e => .error e
  | .ok t => .ok ("std::vector<float> mushroom = \x7b" :: scalarLines t ++ ["\x7d;"])

/-- A tiny concrete test raster with the given number of bands, used to
instantiate theorems with hypotheses. -/
def testImg (b : Nat) : PILImage :=
  { width := 2, height := 2, bands := b, px := fun y x c => y + x + c }

/-- A decode function that succeeds on every path with the test raster. -/
def testDecode (b : Nat) : String → Except String PILImage :=
  fun _ => .ok (testImg b)

/-- A decode function that fails on every path, as Image.open does on a
missing file. -/
def failDecode : String → Except String PILImage :=
  fun _ => .error "No such file or directory"

lemma npArray_multiband (img : PILImage) (h1 : img.bands ≠ 1) :
    npArray img =
      { shape := [img.height, img.width, img.bands]
        data := fun idx =>
          match idx with
          | [y, x, c] => (img.px y x c : ℚ)
          | _ => 0 } := by
  rw [npArray, if_neg h1]

lemma npChain_spec (img : PILImage) (h1 : img.bands ≠ 1) :
    ∃ t, npChain img = .ok t ∧
      t.shape = [1, min 3 img.bands, img.height, img.width] ∧
      ∀ i c h w, t.data [i, c, h, w] = (img.px h w c : ℚ) := by
  rw [npChain, npArray_multiband img h1]
  exact ⟨_, rfl, rfl, fun i c h w => rfl⟩

/-- C1: for every decoded RGB (3 bands) or RGBA (4 bands) image of any
resolution, preprocess succeeds and the resulting tensor has shape
(1, 3, 224, 224). -/
theorem preprocess_shape_rgb_rgba
    (decode : String → Except String PILImage) (imgPath : String) (img : PILImage)
    (hdec : decode imgPath = .ok img) (hb : img.bands = 3 ∨ img.bands = 4) :
    (preprocess decode imgPath).map NDArray.shape = .ok [1, 3, 224, 224] := by
  have h1 : (resizeBilinear img 224 224).bands ≠ 1 := by
    rcases hb with h | h <;> simp [resizeBilinear, h]
  obtain ⟨t, ht, hs, -⟩ := npChain_spec _ h1
  have hpre : preprocess decode imgPath = npChain (resizeBilinear img 224 224) := by
    rw [preprocess, hdec]; exact rfl
  rw [hpre, ht, Except.map, hs]
  rcases hb with h | h <;> simp [resizeBilinear, h]

/-- Witness for C1: a concrete 2x2 RGB raster. -/
theorem preprocess_shape_rgb_rgba_witness :
    (preprocess (testDecode 3) "cheetah.png").map NDArray.shape = .ok [1, 3, 224, 224] :=
  preprocess_shape_rgb_rgba (testDecode 3) "cheetah.png" (testImg 3) rfl (Or.inl rfl)

/-- C2: for a resized image with at least 3 bands, the tensor entry at
(0, c, h, w) for c < 3, h < 224, w < 224 is the resized-image sample at
(h, w, c): channel-last becomes channel-first, a batch axis is prepended, and
only the first three channels are kept. -/
theorem tensor_layout_channel_first (img : PILImage) (c h w : Nat)
    (hb : 3 ≤ img.bands) (_hc : c < 3) (_hh : h < 224) (_hw : w < 224) :
    ∃ t, npChain (resizeBilinear img 224 224) = .ok t ∧
      t.data [0, c, h, w] = ((resizeBilinear img 224 224).px h w c : ℚ) := by
  have h1 : (resizeBilinear img 224 224).bands ≠ 1 := by
    simp only [resizeBilinear]; omega
  obtain ⟨t, ht, -, hd⟩ := npChain_spec _ h1
  exact ⟨t, ht, hd 0 c h w⟩

/-- Witness for C2: a concrete 2x2 RGBA raster at index (0, 1, 2, 3). -/
theorem tensor_layout_channel_first_witness :
    ∃ t, npChain (resizeBilinear (testImg 4) 224 224) = .ok t ∧
      t.data [0, 1, 2, 3] = ((resizeBilinear (testImg 4) 224 224).px 2 3 1 : ℚ) :=
  tensor_layout_channel_first (testImg 4) 1 2 3 (by decide) (by decide) (by decide)
    (by decide)

/-- C4: every tensor value is the corresponding resized-image 8-bit sample
cast to float32 unchanged: no scaling to the unit interval, no mean or
variance adjustment anywhere. -/
theorem tensor_values_unnormalized
    (decode : String → Except String PILImage) (imgPath : String) (img : PILImage)
    (hdec : decode imgPath = .ok img) (hb : 3 ≤ img.bands) :
    ∃ t, preprocess decode imgPath = .ok t ∧
      ∀ i j k l, [i, j, k, l] ∈ rowMajorIdx 1 3 224 224 →
        t.data [i, j, k, l] = ((resizeBilinear img 224 224).px k l j : ℚ) := by
  have h1 : (resizeBilinear img 224 224).bands ≠ 1 := by
    simp only [resizeBilinear]; omega
  obtain ⟨t, ht, -, hd⟩ := npChain_spec _ h1
  have hpre : preprocess decode imgPath = npChain (resizeBilinear img 224 224) := by
    rw [preprocess, hdec]; exact rfl
  exact ⟨t, hpre.trans ht, fun i j k l _ => hd i j k l⟩

/-- Witness for C4: a concrete 2x2 RGB raster. -/
theorem tensor_values_unnormalized_witness :
    ∃ t, preprocess (testDecode 3) "cheetah.png" = .ok t ∧
      ∀ i j k l, [i, j, k, l] ∈ rowMajorIdx 1 3 224 224 →
        t.data [i, j, k, l] = ((resizeBilinear (testImg 3) 224 224).px k l j : ℚ) :=
  tensor_values_unnormalized (testDecode 3) "cheetah.png" (testImg 3) rfl (by decide)

/-- C6: resizing always produces a 224x224 raster whatever the source
resolution (no aspect-ratio preservation, no cropping, no letterboxing), the
band count is kept, each sample is obtained by resampling the columns with
coefficients depending only on the source width and the target column and
then the rows with coefficients depending only on the source height and the
target row, and the back-projected sample centers are the plain independent
affine stretches of the two axes. -/
theorem resize_fixed_size_separable (img : PILImage) (i j c : Nat) :
    (resizeBilinear img 224 224).width = 224 ∧
    (resizeBilinear img 224 224).height = 224 ∧
    (resizeBilinear img 224 224).bands = img.bands ∧
    (resizeBilinear img 224 224).px i j c =
      clip8 (resample1D img.height 224
        (fun y => resample1D img.width 224 (fun x => (img.px y x c : ℚ)) j) i) ∧
    sampleCenter img.width 224 j = ((j : ℚ) + 1 / 2) * ((img.width : ℚ) / 224) ∧
    sampleCenter img.height 224 i = ((i : ℚ) + 1 / 2) * ((img.height : ℚ) / 224) :=
  ⟨rfl, rfl, rfl, rfl, rfl, rfl⟩

/-- C7: the run is a pure function of the decoded input and the path: two
runs on the same input produce identical output. -/
theorem run_deterministic (d₁ d₂ : String → Except String PILImage)
    (p₁ p₂ : String) (hd : d₁ = d₂) (hp : p₁ = p₂) :
    runProgram d₁ p₁ = runProgram d₂ p₂ := by
  rw [hd, hp]

/-- Witness for C7: two runs on the concrete test input. -/
theorem run_deterministic_witness :
    runProgram (testDecode 3) "cheetah.png" = runProgram (testDecode 3) "cheetah.png" :=
  run_deterministic (testDecode 3) (testDecode 3) "cheetah.png" "cheetah.png" rfl rfl

/-- C8: when preprocess fails, the run terminates with exactly the underlying
error and produces no output lines at all (in particular no partial array
initializer: the opening line is only printed after preprocess returned). -/
theorem run_failure_no_output (decode : String → Except String PILImage)
    (imgPath : String) (e : String)
    (hf : preprocess decode imgPath = .error e) :
    runProgram decode imgPath = .error e := by
  unfold runProgram
  rw [hf]

/-- Witness for C8: a decode failure on a missing file. -/
theorem run_failure_no_output_witness :
    runProgram failDecode "missing.png" = .error "No such file or directory" :=
  run_failure_no_output failDecode "missing.png" "No such file or directory" rfl

/-- C9: a decoded 3-d sample array with fewer than 3 channels (and more than
one band, so numpy keeps a channel axis) is sliced without error: preprocess
returns a tensor of shape (1, C, 224, 224) with C < 3 channels. -/
theorem preprocess_few_channels (decode : String → Except String PILImage)
    (imgPath : String) (img : PILImage)
    (hdec : decode imgPath = .ok img) (h1 : img.bands ≠ 1) (h3 : img.bands < 3) :
    (preprocess decode imgPath).map NDArray.shape = .ok [1, img.bands, 224, 224] := by
  have h1r : (resizeBilinear img 224 224).bands ≠ 1 := by
    simpa only [resizeBilinear] using h1
  obtain ⟨t, ht, hs, -⟩ := npChain_spec _ h1r
  have hpre : preprocess decode imgPath = npChain (resizeBilinear img 224 224) := by
    rw [preprocess, hdec]; exact rfl
  rw [hpre, ht, Except.map, hs]
  simp only [resizeBilinear]
  have : min 3 img.bands = img.bands := by omega
  rw [this]

/-- Witness for C9: a concrete 2x2 two-band (luminance plus alpha) raster. -/
theorem preprocess_few_channels_witness :
    (preprocess (testDecode 2) "gray.png").map NDArray.shape = .ok [1, 2, 224, 224] :=
  preprocess_few_channels (testDecode 2) "gray.png" (testImg 2) rfl (by decide) (by decide)

lemma transpose201_dim2 (a : NDArray) (x y : Nat) (hs : a.shape = [x, y]) :
    transpose201 a = .error "axes don\x27t match array" := by
  simp only [transpose201, hs]

lemma preprocess_oneband_axes_mismatch (decode : String → Except String PILImage)
    (imgPath : String) (img : PILImage)
    (hdec : decode imgPath = .ok img) (hb : img.bands = 1) :
    preprocess decode imgPath = .error "axes don\x27t match array" := by
  have hb1 : (resizeBilinear img 224 224).bands = 1 := by
    simpa only [resizeBilinear] using hb
  have hpre : preprocess decode imgPath = npChain (resizeBilinear img 224 224) := by
    rw [preprocess, hdec]; exact rfl
  have hsh : (npArray (resizeBilinear img 224 224)).shape = [224, 224] := by
    rw [npArray, if_pos hb1]; exact rfl
  rw [hpre, npChain, transpose201_dim2 _ 224 224 hsh]
  rfl

/-- Counterexample to C10 as stated: on a concrete one-band raster the
transpose step does make preprocess fail, but with the numpy ValueError whose
message is the axes-mismatch text (the length-3 axes list is compared with
the array dimension before any per-axis bound is looked at), not with an
axis-out-of-range error. -/
theorem preprocess_grayscale_axis_claim_cex :
    preprocess (testDecode 1) "gray.png" = .error "axes don\x27t match array" ∧
    preprocess (testDecode 1) "gray.png" ≠
      .error "axis 2 is out of bounds for array of dimension 2" := by
  have h := preprocess_oneband_axes_mismatch (testDecode 1) "gray.png" (testImg 1)
    rfl (by decide)
  refine ⟨h, ?_⟩
  rw [h]
  intro hcontra
  injection hcontra with hstr
  exact absurd hstr (by decide)

/-- C10 (amended): a decoded one-band (grayscale) image yields a 2-d sample
array, so the length-3 axes list [2, 0, 1] does not match the array
dimension and np.transpose raises the axes-mismatch ValueError; preprocess
fails instead of returning a tensor. -/
theorem preprocess_grayscale_transpose_error (decode : String → Except String PILImage)
    (imgPath : String) (img : PILImage)
    (hdec : decode imgPath = .ok img) (hb : img.bands = 1) :
    preprocess decode imgPath = .error "axes don\x27t match array" :=
  preprocess_oneband_axes_mismatch decode imgPath img hdec hb

/-- Witness for C10: a concrete 2x2 one-band raster. -/
theorem preprocess_grayscale_transpose_error_witness :
    preprocess (testDecode 1) "gray.png" = .error "axes don\x27t match array" :=
  preprocess_grayscale_transpose_error (testDecode 1) "gray.png" (testImg 1) rfl
    (by decide)

lemma rowMajorIdx_length (b c h w : Nat) :
    (rowMajorIdx b c h w).length = b * c * h * w := by
  simp only [rowMajorIdx, List.length_flatMap, List.length_map, List.map_map,
    Function.comp_def, List.map_const', List.sum_replicate, List.length_range,
    smul_eq_mul]
  ring

lemma scalarLines_length (t : NDArray) (b c h w : Nat) (hs : t.shape = [b, c, h, w]) :
    (scalarLines t).length = b * c * h * w := by
  simp [scalarLines, hs, rowMajorIdx_length]

lemma preprocess_ok_spec (decode : String → Except String PILImage)
    (imgPath : String) (img : PILImage)
    (hdec : decode imgPath = .ok img) (hb : img.bands = 3 ∨ img.bands = 4) :
    ∃ t, preprocess decode imgPath = .ok t ∧ t.shape = [1, 3, 224, 224] := by
  have h1 : (resizeBilinear img 224 224).bands ≠ 1 := by
    rcases hb with h | h <;> simp [resizeBilinear, h]
  obtain ⟨t, ht, hs, -⟩ := npChain_spec _ h1
  have hpre : preprocess decode imgPath = npChain (resizeBilinear img 224 224) := by
    rw [preprocess, hdec]; exact rfl
  refine ⟨t, hpre.trans ht, ?_⟩
  rw [hs]
  rcases hb with h | h <;> simp [resizeBilinear, h]

/-- C3: for a decoded RGB or RGBA image the run prints, between the opening
and the closing line, exactly 1 * 3 * 224 * 224 = 150528 scalar lines. -/
theorem run_scalar_line_count (decode : String → Except String PILImage)
    (imgPath : String) (img : PILImage)
    (hdec : decode imgPath = .ok img) (hb : img.bands = 3 ∨ img.bands = 4) :
    ∃ body : List String,
      runProgram decode imgPath =
        .ok ("std::vector<float> mushroom = \x7b" :: body ++ ["\x7d;"]) ∧
      body.length = 150528 := by
  obtain ⟨t, hpre, hs⟩ := preprocess_ok_spec decode imgPath img hdec hb
  refine ⟨scalarLines t, ?_, ?_⟩
  · unfold runProgram
    rw [hpre]
  · rw [scalarLines_length t 1 3 224 224 hs]

/-- Witness for C3: the concrete 2x2 RGB raster. -/
theorem run_scalar_line_count_witness :
    ∃ body : List String,
      runProgram (testDecode 3) "cheetah.png" =
        .ok ("std::vector<float> mushroom = \x7b" :: body ++ ["\x7d;"]) ∧
      body.length = 150528 :=
  run_scalar_line_count (testDecode 3) "cheetah.png" (testImg 3) rfl (Or.inl rfl)

/-- C5: on success the whole standard output is the literal opening line
(whose variable name mushroom is a fixed literal, whatever the input path
was), then one line per scalar of the form four spaces, the textual value and
a comma, in (batch, channel, row, column) row-major order, then the literal
closing line. -/
theorem run_output_format (decode : String → Except String PILImage)
    (imgPath : String) (img : PILImage)
    (hdec : decode imgPath = .ok img) (hb : img.bands = 3 ∨ img.bands = 4) :
    ∃ t, preprocess decode imgPath = .ok t ∧
      runProgram decode imgPath =
        .ok ("std::vector<float> mushroom = \x7b" ::
          ((rowMajorIdx 1 3 224 224).map fun idx =>
            "    " ++ toString (t.data idx) ++ ",") ++
          ["\x7d;"]) := by
  obtain ⟨t, hpre, hs⟩ := preprocess_ok_spec decode imgPath img hdec hb
  refine ⟨t, hpre, ?_⟩
  unfold runProgram
  rw [hpre]
  simp only [scalarLines, hs, scalarLine]

/-- Witness for C5: the concrete 2x2 RGB raster. -/
theorem run_output_format_witness :
    ∃ t, preprocess (testDecode 3) "mushroom.png" = .ok t ∧
      runProgram (testDecode 3) "mushroom.png" =
        .ok ("std::vector<float> mushroom = \x7b" ::
          ((rowMajorIdx 1 3 224 224).map fun idx =>
            "    " ++ toString (t.data idx) ++ ",") ++
          ["\x7d;"]) :=
  run_output_format (testDecode 3) "mushroom.png" (testImg 3) rfl (Or.inl rfl)

end Pics
